import Mathlib

/-!
# Verification of the `lnk-rs` shell-link codec

A shallow embedding of the `lnk-rs` repository (a Rust reader/writer for
Windows `.lnk` shell-link files) together with proofs about its behaviour.

Byte streams are modelled as `List Nat` (each entry a byte value `< 256`);
Rust `String`s as `List Char` (Rust `char` and Lean `Char` are both Unicode
scalar values); fallible operations return `Except`.  Machine-integer
arithmetic that can overflow is modelled with explicit `% 2^w`.

The embedded functions mirror, file by file:
* `src/strings/sized_string.rs` — `parse_sized_string`, `write_sized_string`
* `src/strings/string_encoding.rs` — `StringEncoding`
* `src/stringdata.rs` — `StringData` and its field-by-field codec
* `src/lib.rs` — `ShellLink`, `save`, `open`, `link_target`, the five
  string setters and `Default`.

The modules `header.rs`, `linktarget.rs`, `linkinfo.rs` and `extradata.rs`
are part of the repository but their sources are not available; the
definitions for those components are modelled from the specification and
are marked `Modelled from the spec:` in their doc comments.

The behaviour of the external crate `encoding_rs` is embedded faithfully,
including its documented property that requesting an encode to UTF-16LE
produces UTF-8 output (the WHATWG output-encoding rule), and that
windows-1252 decoding is total.
-/

deriving instance DecidableEq for Except

namespace LnkRs

/-! ## Byte-stream primitives -/

/-- Parse errors, mirroring the `binrw::Error` values the source produces:
`eof` for an unexpected end of input (`std::io::ErrorKind::UnexpectedEof`),
`assertFail` for `binrw::Error::AssertFail` (the stream-position payload of
the source error is omitted), `custom` for other structural failures. -/
inductive PErr
  | eof
  | assertFail (msg : String)
  | custom (msg : String)
deriving DecidableEq, Repr

/-- Read exactly `n` bytes from the stream; `eof` if fewer remain. -/
def readBytes : Nat → List Nat → Except PErr (List Nat × List Nat)
  | 0, bs => .ok ([], bs)
  | _ + 1, [] => .error .eof
  | n + 1, b :: bs => do
    let (xs, r) ← readBytes n bs
    .ok (b :: xs, r)

/-- Little-endian value of a byte list (first byte least significant). -/
def leVal (l : List Nat) : Nat := l.foldr (fun b acc => b + 256 * acc) 0

/-- Read a little-endian `u16`. -/
def readU16 (bs : List Nat) : Except PErr (Nat × List Nat) := do
  let (c, r) ← readBytes 2 bs
  .ok (leVal c, r)

/-- Read a little-endian `u32`. -/
def readU32 (bs : List Nat) : Except PErr (Nat × List Nat) := do
  let (c, r) ← readBytes 4 bs
  .ok (leVal c, r)

/-- Read a little-endian `u64`. -/
def readU64 (bs : List Nat) : Except PErr (Nat × List Nat) := do
  let (c, r) ← readBytes 8 bs
  .ok (leVal c, r)

/-- Little-endian bytes of a `u16` value. -/
def u16le (n : Nat) : List Nat := [n % 256, n / 256 % 256]

/-- Little-endian bytes of a `u32` value. -/
def u32le (n : Nat) : List Nat :=
  [n % 256, n / 256 % 256, n / 65536 % 256, n / 16777216 % 256]

/-- Little-endian bytes of a `u64` value. -/
def u64le (n : Nat) : List Nat := u32le (n % 4294967296) ++ u32le (n / 4294967296)

/-! ## Strings and character encodings

Rust `String`s are embedded as `List Char`.  `Rust.len` is the UTF-8 byte
length (`String::len` in Rust counts bytes), `charCount` the number of
characters. -/

/-- A Rust `String`, as its list of Unicode scalar values. -/
abbrev RStr := List Char

/-- The number of characters of a string (`s.chars().count()` in Rust). -/
def charCount (s : RStr) : Nat := s.length

/-- The UTF-8 byte length of a string (Rust `String::len`). -/
def utf8Len (s : RStr) : Nat := (s.map Char.utf8Size).sum

/-- The UTF-8 bytes of one character. -/
def utf8CharBytes (c : Char) : List Nat :=
  let n := c.toNat
  if n < 128 then [n]
  else if n < 2048 then [192 + n / 64, 128 + n % 64]
  else if n < 65536 then [224 + n / 4096, 128 + n / 64 % 64, 128 + n % 64]
  else [240 + n / 262144, 128 + n / 4096 % 64, 128 + n / 64 % 64, 128 + n % 64]

/-- The UTF-8 bytes of a string. -/
def utf8Encode (s : RStr) : List Nat := (s.map utf8CharBytes).flatten

/-- windows-1252 decoding of a single byte.  Bytes below `0x80` and in
`0xA0`–`0xFF` map to the identical code point; `0x80`–`0x9F` follow the
windows-1252 table, with the five unassigned bytes mapping to the matching
C1 control characters exactly as `encoding_rs` decodes them (so decoding
never reports an error). -/
def cp1252DecodeByte (b : Nat) : Char :=
  if b < 128 then Char.ofNat b
  else if 160 ≤ b then Char.ofNat b
  else match b with
    | 128 => '€' | 130 => '‚' | 131 => 'ƒ' | 132 => '„'
    | 133 => '…' | 134 => '†' | 135 => '‡' | 136 => 'ˆ'
    | 137 => '‰' | 138 => 'Š' | 139 => '‹' | 140 => 'Œ'
    | 142 => 'Ž' | 145 => '‘' | 146 => '’' | 147 => '“'
    | 148 => '”' | 149 => '•' | 150 => '–' | 151 => '—'
    | 152 => '˜' | 153 => '™' | 154 => 'š' | 155 => '›'
    | 156 => 'œ' | 158 => 'ž' | 159 => 'Ÿ'
    | b => Char.ofNat b

/-- windows-1252 decoding of a byte sequence.  As in `encoding_rs`, every
byte decodes, so the `hadErrors` flag is always `false`. -/
def cp1252Decode (bs : List Nat) : RStr × Bool := (bs.map cp1252DecodeByte, false)

/-- windows-1252 encoding of a single character: the inverse of
`cp1252DecodeByte` where one exists; an unmappable character is replaced by
a decimal numeric character reference `&#NNNN;`, exactly as
`encoding_rs::Encoding::encode` substitutes unmappables. -/
def cp1252EncodeChar (c : Char) : List Nat :=
  let n := c.toNat
  if n < 128 then [n]
  else if 160 ≤ n ∧ n ≤ 255 then [n]
  else match n with
    | 0x20AC => [128] | 0x201A => [130] | 0x0192 => [131] | 0x201E => [132]
    | 0x2026 => [133] | 0x2020 => [134] | 0x2021 => [135] | 0x02C6 => [136]
    | 0x2030 => [137] | 0x0160 => [138] | 0x2039 => [139] | 0x0152 => [140]
    | 0x017D => [142] | 0x2018 => [145] | 0x2019 => [146] | 0x201C => [147]
    | 0x201D => [148] | 0x2022 => [149] | 0x2013 => [150] | 0x2014 => [151]
    | 0x02DC => [152] | 0x2122 => [153] | 0x0161 => [154] | 0x203A => [155]
    | 0x0153 => [156] | 0x017E => [158] | 0x0178 => [159]
    | 0x81 => [129] | 0x8D => [141] | 0x8F => [143] | 0x90 => [144] | 0x9D => [157]
    | n => [38, 35] ++ (Nat.toDigits 10 n).map Char.toNat ++ [59]

/-- windows-1252 encoding of a string (the source discards the
`hadErrors` flag of `encoding_rs::Encoding::encode`, so it is not
modelled). -/
def cp1252Encode (s : RStr) : List Nat := (s.map cp1252EncodeChar).flatten

/-- Collect UTF-16 code units from little-endian byte pairs; the `Bool`
records a dangling odd byte at the end. -/
def utf16Units : List Nat → List Nat × Bool
  | [] => ([], false)
  | [_] => ([], true)
  | a :: b :: rest =>
    let (u, e) := utf16Units rest
    ((a + 256 * b) :: u, e)

/-- Decode a UTF-16 code-unit sequence, replacing ill-formed subsequences
with U+FFFD and flagging an error, as `encoding_rs` does for UTF-16LE. -/
def utf16UnitsToChars : List Nat → RStr × Bool
  | [] => ([], false)
  | [u] =>
    if u < 0xD800 ∨ 0xE000 ≤ u then ([Char.ofNat u], false) else (['�'], true)
  | u :: v :: rest =>
    if u < 0xD800 ∨ 0xE000 ≤ u then
      let (cs, e) := utf16UnitsToChars (v :: rest)
      (Char.ofNat u :: cs, e)
    else if u < 0xDC00 then
      if 0xDC00 ≤ v ∧ v < 0xE000 then
        let (cs, e) := utf16UnitsToChars rest
        (Char.ofNat (65536 + (u - 0xD800) * 1024 + (v - 0xDC00)) :: cs, e)
      else
        let (cs, _) := utf16UnitsToChars (v :: rest)
        ('�' :: cs, true)
    else
      let (cs, _) := utf16UnitsToChars (v :: rest)
      ('�' :: cs, true)

/-- UTF-16LE decoding of a byte sequence, with the `hadErrors` flag. -/
def utf16leDecode (bs : List Nat) : RStr × Bool :=
  let (units, odd) := utf16Units bs
  let (cs, err) := utf16UnitsToChars units
  (cs ++ (if odd then ['�'] else []), err || odd)

/-- The two `encoding_rs::Encoding` values this development needs:
`UTF_16LE` and `WINDOWS_1252` (the code page used by every test and
example of the repository). -/
inductive Enc
  | utf16le
  | windows1252
deriving DecidableEq, Repr

/-- `encoding_rs` decoding (`Encoding::decode`): the decoded string and the
`hadErrors` flag. -/
def Enc.decode : Enc → List Nat → RStr × Bool
  | .utf16le, bs => utf16leDecode bs
  | .windows1252, bs => cp1252Decode bs

/-- `encoding_rs` encoding (`Encoding::encode`).  `encoding_rs` cannot
encode to UTF-16: per the WHATWG output-encoding rule the output encoding
of UTF-16LE is UTF-8, so `UTF_16LE.encode` produces the UTF-8 bytes of the
string.  windows-1252 encodes per table with numeric character references
for unmappables. -/
def Enc.encode : Enc → RStr → List Nat
  | .utf16le, s => utf8Encode s
  | .windows1252, s => cp1252Encode s

/-! ## Link flags

`header.rs` is not among the available sources; `LinkFlags` is a
`bitflags` set there.  Modelled from the spec: a fixed-width set of named
boolean bits controlling Unicode string encoding, presence of the Target
ID List, presence of Link Info, and presence of each of the five string
fields; the remaining (behavioural) bits are kept as the raw number
`others` so unknown bit combinations are preserved.  The bit positions are
the ones of the MS-SHLLINK layout the repository links to. -/

/-- Modelled from the spec: the header's `LinkFlags` bit set (the
`header.rs` source is missing).  The first eight bits are named; all
higher bits are preserved raw in `others`. -/
structure LinkFlags where
  hasLinkTargetIdList : Bool
  hasLinkInfoFlag : Bool
  hasName : Bool
  hasRelativePath : Bool
  hasWorkingDir : Bool
  hasArguments : Bool
  hasIconLocation : Bool
  isUnicode : Bool
  others : Nat
deriving DecidableEq, Repr

/-- The all-clear flag set. -/
def LinkFlags.empty : LinkFlags := ⟨false, false, false, false, false, false, false, false, 0⟩

/-- The `u32` value of a flag set (little-endian bit 0 first). -/
def LinkFlags.toU32 (f : LinkFlags) : Nat :=
  (if f.hasLinkTargetIdList then 1 else 0) + (if f.hasLinkInfoFlag then 2 else 0) +
  (if f.hasName then 4 else 0) + (if f.hasRelativePath then 8 else 0) +
  (if f.hasWorkingDir then 16 else 0) + (if f.hasArguments then 32 else 0) +
  (if f.hasIconLocation then 64 else 0) + (if f.isUnicode then 128 else 0) +
  256 * f.others

/-- Rebuild a flag set from its `u32` value. -/
def LinkFlags.ofU32 (n : Nat) : LinkFlags :=
  ⟨n % 2 = 1, n / 2 % 2 = 1, n / 4 % 2 = 1, n / 8 % 2 = 1,
   n / 16 % 2 = 1, n / 32 % 2 = 1, n / 64 % 2 = 1, n / 128 % 2 = 1, n / 256⟩

/-- `bitflags` `contains`: every bit set in `m` is set in `f`. -/
def LinkFlags.containsF (f m : LinkFlags) : Bool :=
  (!m.hasLinkTargetIdList || f.hasLinkTargetIdList) &&
  (!m.hasLinkInfoFlag || f.hasLinkInfoFlag) &&
  (!m.hasName || f.hasName) &&
  (!m.hasRelativePath || f.hasRelativePath) &&
  (!m.hasWorkingDir || f.hasWorkingDir) &&
  (!m.hasArguments || f.hasArguments) &&
  (!m.hasIconLocation || f.hasIconLocation) &&
  (!m.isUnicode || f.isUnicode) &&
  (m.others &&& f.others == m.others)

/-- `bitflags` `set`: force every bit of the mask `m` to the value `v`. -/
def LinkFlags.setF (f m : LinkFlags) (v : Bool) : LinkFlags where
  hasLinkTargetIdList := if m.hasLinkTargetIdList then v else f.hasLinkTargetIdList
  hasLinkInfoFlag := if m.hasLinkInfoFlag then v else f.hasLinkInfoFlag
  hasName := if m.hasName then v else f.hasName
  hasRelativePath := if m.hasRelativePath then v else f.hasRelativePath
  hasWorkingDir := if m.hasWorkingDir then v else f.hasWorkingDir
  hasArguments := if m.hasArguments then v else f.hasArguments
  hasIconLocation := if m.hasIconLocation then v else f.hasIconLocation
  isUnicode := if m.isUnicode then v else f.isUnicode
  -- the complement is within the 24 bits that `others` occupies in the `u32`
  others := if v then f.others ||| m.others else f.others &&& (16777215 ^^^ m.others)

/-- The `LinkFlags::HAS_LINK_TARGET_ID_LIST` constant. -/
def HAS_LINK_TARGET_ID_LIST : LinkFlags := { LinkFlags.empty with hasLinkTargetIdList := true }
/-- The `LinkFlags::HAS_LINK_INFO` constant. -/
def HAS_LINK_INFO : LinkFlags := { LinkFlags.empty with hasLinkInfoFlag := true }
/-- The `LinkFlags::HAS_NAME` constant. -/
def HAS_NAME : LinkFlags := { LinkFlags.empty with hasName := true }
/-- The `LinkFlags::HAS_RELATIVE_PATH` constant. -/
def HAS_RELATIVE_PATH : LinkFlags := { LinkFlags.empty with hasRelativePath := true }
/-- The `LinkFlags::HAS_WORKING_DIR` constant. -/
def HAS_WORKING_DIR : LinkFlags := { LinkFlags.empty with hasWorkingDir := true }
/-- The `LinkFlags::HAS_ARGUMENTS` constant. -/
def HAS_ARGUMENTS : LinkFlags := { LinkFlags.empty with hasArguments := true }
/-- The `LinkFlags::HAS_ICON_LOCATION` constant. -/
def HAS_ICON_LOCATION : LinkFlags := { LinkFlags.empty with hasIconLocation := true }
/-- The `LinkFlags::IS_UNICODE` constant. -/
def IS_UNICODE : LinkFlags := { LinkFlags.empty with isUnicode := true }

/-! ## String encoding resolution (`src/strings/string_encoding.rs`) -/

/-- `StringEncoding`: either the caller's code page or Unicode (UTF-16LE). -/
inductive StringEncoding
  | codePage (cp : Enc)
  | unicode
deriving DecidableEq, Repr

/-- `StringEncoding::from`: resolve from the `IS_UNICODE` flag and the
caller-supplied default code page. -/
def StringEncoding.fromFlags (link_flags : LinkFlags) (default_codepage : Enc) :
    StringEncoding :=
  if link_flags.containsF IS_UNICODE then .unicode else .codePage default_codepage

/-- `StringEncoding::encoding`: the effective `encoding_rs` encoding. -/
def StringEncoding.effective : StringEncoding → Enc
  | .codePage cp => cp
  | .unicode => .utf16le

/-! ## Sized strings (`src/strings/sized_string.rs`) -/

/-- `parse_sized_string`: if `expected_flag` is set in `link_flags`, read
a 2-byte character count and then the string payload — `count` bytes for a
code page, or `count * 2` bytes for Unicode, where the multiplication is
the source's `u16` arithmetic and therefore wraps modulo `2^16` — and
decode it with the resolved encoding, failing with `AssertFail` when the
decoder reports errors.  If the flag is clear, read nothing and return
`none`. -/
def parse_sized_string (link_flags expected_flag : LinkFlags) (encoding : Enc)
    (bs : List Nat) : Except PErr (Option RStr × List Nat) :=
  if link_flags.containsF expected_flag then do
    let (count_characters, r1) ← readU16 bs
    match StringEncoding.fromFlags link_flags encoding with
    | .codePage default_encoding => do
      let (buffer, r2) ← readBytes count_characters r1
      let (cow, had_errors) := default_encoding.decode buffer
      if had_errors then
        .error (.assertFail "unable to decode String to CP1252")
      else
        .ok (some cow, r2)
    | .unicode => do
      let (buffer, r2) ← readBytes (count_characters * 2 % 65536) r1
      let (cow, had_errors) := Enc.utf16le.decode buffer
      if had_errors then
        .error (.assertFail "unable to decode String to UTF-16LE")
      else
        .ok (some cow, r2)
  else
    .ok (none, bs)

/-- Failures of a write: `panicked` models a Rust panic (the source's
`assert!` / `expect`, which aborts rather than returning an error value);
`custom` models `binrw::Error::Custom`, a typed error returned to the
caller (its stream-position payload is omitted). -/
inductive WriteFailure
  | panicked (msg : String)
  | custom (msg : String)
deriving DecidableEq, Repr

/-- `write_sized_string`: if `expected_flag` is set, assert the value is
present (panicking otherwise), convert the string's UTF-8 byte length
(Rust `String::len`) to `u16` — a typed `Custom` error `"String is too
long to be written"` if it exceeds `65535` — then emit the length followed
by the bytes of the resolved encoding.  If the flag is clear, assert the
value is absent (panicking otherwise) and write nothing. -/
def write_sized_string (s : Option RStr) (link_flags expected_flag : LinkFlags)
    (encoding : Enc) : Except WriteFailure (List Nat) :=
  if link_flags.containsF expected_flag then
    match s with
    | none => .error (.panicked "assertion failed: s.is_some()")
    | some s =>
      if utf8Len s ≤ 65535 then
        let bytes := (StringEncoding.fromFlags link_flags encoding).effective.encode s
        .ok (u16le (utf8Len s) ++ bytes)
      else
        .error (.custom "String is too long to be written")
  else
    match s with
    | some _ => .error (.panicked "assertion failed: s.is_none()")
    | none => .ok []

/-! ## String data (`src/stringdata.rs`) -/

/-- The five optional, flag-gated string fields. -/
structure StringData where
  name_string : Option RStr
  relative_path : Option RStr
  working_dir : Option RStr
  command_line_arguments : Option RStr
  icon_location : Option RStr
deriving DecidableEq, Repr

/-- The all-absent `StringData` (its `Default`). -/
def StringData.default : StringData := ⟨none, none, none, none, none⟩

/-- The `BinRead` derive of `StringData`: the five fields in declaration
order, each via `parse_sized_string` with its flag. -/
def StringData.parse (link_flags : LinkFlags) (encoding : Enc) (bs : List Nat) :
    Except PErr (StringData × List Nat) :=
  match parse_sized_string link_flags HAS_NAME encoding bs with
  | .error e => .error e
  | .ok (name_string, r1) =>
    match parse_sized_string link_flags HAS_RELATIVE_PATH encoding r1 with
    | .error e => .error e
    | .ok (relative_path, r2) =>
      match parse_sized_string link_flags HAS_WORKING_DIR encoding r2 with
      | .error e => .error e
      | .ok (working_dir, r3) =>
        match parse_sized_string link_flags HAS_ARGUMENTS encoding r3 with
        | .error e => .error e
        | .ok (command_line_arguments, r4) =>
          match parse_sized_string link_flags HAS_ICON_LOCATION encoding r4 with
          | .error e => .error e
          | .ok (icon_location, r5) =>
            .ok (⟨name_string, relative_path, working_dir, command_line_arguments,
                  icon_location⟩, r5)

/-- The `BinWrite` derive of `StringData`: the five fields in declaration
order, each via `write_sized_string` with its flag. -/
def StringData.write (sd : StringData) (link_flags : LinkFlags) (encoding : Enc) :
    Except WriteFailure (List Nat) :=
  match write_sized_string sd.name_string link_flags HAS_NAME encoding with
  | .error e => .error e
  | .ok b1 =>
    match write_sized_string sd.relative_path link_flags HAS_RELATIVE_PATH encoding with
    | .error e => .error e
    | .ok b2 =>
      match write_sized_string sd.working_dir link_flags HAS_WORKING_DIR encoding with
      | .error e => .error e
      | .ok b3 =>
        match write_sized_string sd.command_line_arguments link_flags HAS_ARGUMENTS
            encoding with
        | .error e => .error e
        | .ok b4 =>
          match write_sized_string sd.icon_location link_flags HAS_ICON_LOCATION
              encoding with
          | .error e => .error e
          | .ok b5 => .ok (b1 ++ b2 ++ b3 ++ b4 ++ b5)

/-! ## Header codec

Modelled from the spec (`header.rs` is missing from the sources): a fixed
76-byte record — magic, class-identifier GUID, `LinkFlags`, file-attribute
flags, three FILETIME timestamps, target file size, icon index, show
command, hotkey, and reserved fields that round-trip unchanged.  Numeric
fields are kept as their raw little-endian values. -/

/-- Modelled from the spec: the fixed 76-byte `ShellLinkHeader`. -/
structure ShellLinkHeader where
  link_flags : LinkFlags
  file_attributes : Nat
  creation_time : Nat
  access_time : Nat
  write_time : Nat
  file_size : Nat
  icon_index : Nat
  show_command : Nat
  hotkey : Nat
  reserved1 : Nat
  reserved2 : Nat
  reserved3 : Nat
deriving DecidableEq, Repr

/-- Modelled from the spec: the fresh all-zero/default header used when
authoring a new link. -/
def ShellLinkHeader.default : ShellLinkHeader := ⟨LinkFlags.empty, 0, 0, 0, 0, 0, 0, 0, 0, 0, 0, 0⟩

/-- `update_link_flags`: force the masked flag bits to the given value. -/
def ShellLinkHeader.update_link_flags (h : ShellLinkHeader) (mask : LinkFlags) (v : Bool) :
    ShellLinkHeader :=
  { h with link_flags := h.link_flags.setF mask v }

/-- The 4-byte magic constant (`0x0000004C` little-endian). -/
def headerMagic : List Nat := [76, 0, 0, 0]

/-- The 16 bytes of the fixed well-known class identifier GUID
`00021401-0000-0000-C000-000000000046` in its on-disk layout. -/
def classIdBytes : List Nat :=
  [1, 20, 2, 0, 0, 0, 0, 0, 192, 0, 0, 0, 0, 0, 0, 70]

/-- Modelled from the spec: serialize the 76 header bytes in file order. -/
def encodeHeader (h : ShellLinkHeader) : List Nat :=
  headerMagic ++ classIdBytes ++ u32le h.link_flags.toU32 ++ u32le h.file_attributes ++
  u64le h.creation_time ++ u64le h.access_time ++ u64le h.write_time ++
  u32le h.file_size ++ u32le h.icon_index ++ u32le h.show_command ++
  u16le h.hotkey ++ u16le h.reserved1 ++ u32le h.reserved2 ++ u32le h.reserved3

/-- Modelled from the spec: read exactly 76 bytes, verify the magic and the
class GUID (failing as "not a shell link" otherwise), and parse the fixed
fields positionally; unknown flag bits are preserved, not rejected. -/
def parseHeader (bs : List Nat) : Except PErr (ShellLinkHeader × List Nat) := do
  let (magic, r1) ← readBytes 4 bs
  if magic = headerMagic then
    let (guid, r2) ← readBytes 16 r1
    if guid = classIdBytes then do
      let (flagsRaw, r3) ← readU32 r2
      let (file_attributes, r4) ← readU32 r3
      let (creation_time, r5) ← readU64 r4
      let (access_time, r6) ← readU64 r5
      let (write_time, r7) ← readU64 r6
      let (file_size, r8) ← readU32 r7
      let (icon_index, r9) ← readU32 r8
      let (show_command, r10) ← readU32 r9
      let (hotkey, r11) ← readU16 r10
      let (reserved1, r12) ← readU16 r11
      let (reserved2, r13) ← readU32 r12
      let (reserved3, r14) ← readU32 r13
      .ok (⟨LinkFlags.ofU32 flagsRaw, file_attributes, creation_time, access_time,
            write_time, file_size, icon_index, show_command, hotkey,
            reserved1, reserved2, reserved3⟩, r14)
    else
      .error (.custom "not a shell link: class identifier mismatch")
  else
    .error (.custom "not a shell link: bad magic")

/-! ## Link target ID list codec

Modelled from the spec (`linktarget.rs` is missing from the sources): a
2-byte total length, then that many bytes split into length-prefixed item
records (2-byte length including itself, then the payload) until a 2-byte
zero terminator or the declared total is exhausted; the record payloads
are preserved as opaque ordered byte records. -/

/-- The target ID list: its item records' payload bytes, in order. -/
structure LinkTargetIdList where
  records : List (List Nat)
deriving DecidableEq, Repr

/-- Modelled from the spec: split a byte block into length-prefixed item
records until a zero length marker or the block is exhausted; a record
length below the 2 bytes of the length field itself is malformed. -/
def parseIdRecords : Nat → List Nat → Except PErr (List (List Nat))
  | _, [] => .ok []
  | 0, _ => .error (.custom "item records exceed the declared total")
  | fuel + 1, bs => do
    let (len, r1) ← readU16 bs
    if len = 0 then
      .ok []
    else if len < 2 then
      .error (.custom "invalid item record length")
    else do
      let (payload, r2) ← readBytes (len - 2) r1
      let rest ← parseIdRecords fuel r2
      .ok (payload :: rest)

/-- Modelled from the spec: decode the target ID list. -/
def parseIdList (bs : List Nat) : Except PErr (LinkTargetIdList × List Nat) := do
  let (total, r1) ← readU16 bs
  let (listBytes, rest) ← readBytes total r1
  let records ← parseIdRecords total listBytes
  .ok (⟨records⟩, rest)

/-! ## Link info codec

Modelled from the spec (`linkinfo.rs` is missing from the sources): an
offset-addressed block.  Every non-zero offset must address a position
strictly inside `[0, total_size)`; violations fail with a bounds error
rather than reading outside the declared block.  Offsets equal to zero
mean "absent". -/

/-- The Link Info internal flag set: whether a local path (with volume
information) and/or a network relative link with common path suffix are
present. -/
structure LinkInfoFlags where
  volume_id_and_local_base_path : Bool
  common_network_relative_link_and_path_suffix : Bool
deriving DecidableEq, Repr

/-- Modelled from the spec: the VolumeID sub-block — drive type, serial
number and volume label. -/
structure VolumeID where
  drive_type : Nat
  serial_number : Nat
  volume_label : RStr
deriving DecidableEq, Repr

/-- Modelled from the spec: the CommonNetworkRelativeLink sub-block —
network share name, device name, network provider type. -/
structure CommonNetworkRelativeLink where
  name : RStr
  device_name : Option RStr
  network_provider_type : Nat
deriving DecidableEq, Repr

/-- The Link Info structure, with the fields the aggregate exposes. -/
structure LinkInfo where
  link_info_flags : LinkInfoFlags
  volume_id : Option VolumeID
  local_base_path : Option RStr
  common_network_relative_link : Option CommonNetworkRelativeLink
  common_path_suffix : RStr
  local_base_path_unicode : Option RStr
  common_path_suffix_unicode : Option RStr
deriving DecidableEq, Repr

/-- The bytes of a null-terminated string: everything before the first
zero byte, or `none` when no terminator exists in the list. -/
def takeUntilZero (l : List Nat) : Option (List Nat) :=
  if 0 ∈ l then some (l.takeWhile (· ≠ 0)) else none

/-- The bytes of a null-terminated UTF-16 string: everything before the
first zero code unit, or `none` when no terminator exists. -/
def takeUntilZeroU16 : List Nat → Option (List Nat)
  | a :: b :: rest =>
    if a = 0 ∧ b = 0 then some [] else (takeUntilZeroU16 rest).map (a :: b :: ·)
  | _ => none

/-- Modelled from the spec: bounds-checked read of a null-terminated
code-page string at a byte offset inside the Link Info block. -/
def readNullTermAt (block : List Nat) (off total_size : Nat) (encoding : Enc) :
    Except PErr RStr :=
  if off < total_size then
    match takeUntilZero (block.drop off) with
    | some bytes =>
      let (s, had_errors) := encoding.decode bytes
      if had_errors then .error (.assertFail "unable to decode LinkInfo string")
      else .ok s
    | none => .error (.custom "unterminated string in LinkInfo")
  else
    .error (.custom "LinkInfo offset out of bounds")

/-- Modelled from the spec: bounds-checked read of a null-terminated
UTF-16LE string at a byte offset inside the Link Info block. -/
def readNullTermU16At (block : List Nat) (off total_size : Nat) :
    Except PErr RStr :=
  if off < total_size then
    match takeUntilZeroU16 (block.drop off) with
    | some bytes =>
      let (s, had_errors) := utf16leDecode bytes
      if had_errors then .error (.assertFail "unable to decode LinkInfo string")
      else .ok s
    | none => .error (.custom "unterminated string in LinkInfo")
  else
    .error (.custom "LinkInfo offset out of bounds")

/-- Modelled from the spec: decode the VolumeID sub-block at its offset —
size, drive type, serial number, and the volume label at its own nested
offset, all bounds-checked against the enclosing block. -/
def parseVolumeIdAt (block : List Nat) (off total_size : Nat) (encoding : Enc) :
    Except PErr VolumeID := do
  if off < total_size then
    let (_vol_size, v1) ← readU32 (block.drop off)
    let (drive_type, v2) ← readU32 v1
    let (serial_number, v3) ← readU32 v2
    let (label_offset, _) ← readU32 v3
    let volume_label ← readNullTermAt block (off + label_offset) total_size encoding
    .ok ⟨drive_type, serial_number, volume_label⟩
  else
    .error (.custom "LinkInfo offset out of bounds")

/-- Modelled from the spec: decode the CommonNetworkRelativeLink sub-block
at its offset — size, flags, the share-name and device-name offsets and
the provider type, with the strings read at their nested offsets,
bounds-checked against the enclosing block. -/
def parseCnrlAt (block : List Nat) (off total_size : Nat) (encoding : Enc) :
    Except PErr CommonNetworkRelativeLink := do
  if off < total_size then
    let (_cnrl_size, c1) ← readU32 (block.drop off)
    let (_cnrl_flags, c2) ← readU32 c1
    let (net_name_offset, c3) ← readU32 c2
    let (device_name_offset, c4) ← readU32 c3
    let (network_provider_type, _) ← readU32 c4
    let name ← readNullTermAt block (off + net_name_offset) total_size encoding
    let device_name ←
      if device_name_offset = 0 then .ok none
      else (readNullTermAt block (off + device_name_offset) total_size encoding).map some
    .ok ⟨name, device_name, network_provider_type⟩
  else
    .error (.custom "LinkInfo offset out of bounds")

/-- Modelled from the spec: decode a Link Info block — total size and
header size first, then the flag set and the offset table (the extended
layout with the two Unicode offsets when the header size indicates it),
then each non-zero offset dereferenced inside the block under bounds
checks. -/
def parseLinkInfo (encoding : Enc) (bs : List Nat) :
    Except PErr (LinkInfo × List Nat) := do
  let (total_size, _) ← readU32 bs
  let (block, rest) ← readBytes total_size bs
  let (_, b1) ← readU32 block
  let (header_size, b2) ← readU32 b1
  let (flagsRaw, b3) ← readU32 b2
  let flags : LinkInfoFlags := ⟨flagsRaw % 2 = 1, flagsRaw / 2 % 2 = 1⟩
  let (volume_id_offset, b4) ← readU32 b3
  let (local_base_path_offset, b5) ← readU32 b4
  let (cnrl_offset, b6) ← readU32 b5
  let (common_path_suffix_offset, b7) ← readU32 b6
  let (lbp_unicode_offset, cps_unicode_offset) ←
    if 36 ≤ header_size then do
      let (a, b8) ← readU32 b7
      let (b, _) ← readU32 b8
      .ok (a, b)
    else
      .ok (0, 0)
  let volume_id ←
    if flags.volume_id_and_local_base_path ∧ volume_id_offset ≠ 0 then
      (parseVolumeIdAt block volume_id_offset total_size encoding).map some
    else .ok none
  let local_base_path ←
    if flags.volume_id_and_local_base_path ∧ local_base_path_offset ≠ 0 then
      (readNullTermAt block local_base_path_offset total_size encoding).map some
    else .ok none
  let common_network_relative_link ←
    if flags.common_network_relative_link_and_path_suffix ∧ cnrl_offset ≠ 0 then
      (parseCnrlAt block cnrl_offset total_size encoding).map some
    else .ok none
  let common_path_suffix ←
    if common_path_suffix_offset = 0 then .ok []
    else readNullTermAt block common_path_suffix_offset total_size encoding
  let local_base_path_unicode ←
    if lbp_unicode_offset = 0 then .ok none
    else (readNullTermU16At block lbp_unicode_offset total_size).map some
  let common_path_suffix_unicode ←
    if cps_unicode_offset = 0 then .ok none
    else (readNullTermU16At block cps_unicode_offset total_size).map some
  .ok (⟨flags, volume_id, local_base_path, common_network_relative_link,
        common_path_suffix, local_base_path_unicode, common_path_suffix_unicode⟩, rest)

/-! ## Extra data codec

Modelled from the spec (`extradata.rs` is missing from the sources): an
ordered chain of blocks, each a 4-byte total size and a 4-byte signature
followed by `size - 8` payload bytes; a declared size below the minimum
block header size (which covers the zero terminator) stops the chain, and
payloads are retained verbatim.  The spec leaves the clean end-of-input
case unstated; the chain is taken to end there as well, which its
minimal-link property requires. -/

/-- One extension block: its signature and its raw payload bytes. -/
structure ExtraDataBlock where
  signature : Nat
  payload : List Nat
deriving DecidableEq, Repr

/-- The extra-data section: the chain of blocks. -/
abbrev ExtraData := List ExtraDataBlock

/-- Modelled from the spec: read the block chain (fuel-indexed loop; the
fuel is the input length, which bounds the number of blocks). -/
def parseExtraBlocks : Nat → List Nat → Except PErr ExtraData
  | _, [] => .ok []
  | 0, _ => .error (.custom "extra data chain does not terminate")
  | fuel + 1, bs => do
    let (size, r1) ← readU32 bs
    if size < 8 then
      .ok []
    else do
      let (signature, r2) ← readU32 r1
      let (payload, r3) ← readBytes (size - 8) r2
      let rest ← parseExtraBlocks fuel r3
      .ok (⟨signature, payload⟩ :: rest)

/-- Modelled from the spec: decode the extra-data section. -/
def parseExtraData (bs : List Nat) : Except PErr ExtraData :=
  parseExtraBlocks bs.length bs

/-! ## Errors (`src/error.rs`) -/

/-- The library error type.  `ioError` (filesystem failures) lies outside
the byte-level model and never occurs here; the remaining constructors
mirror `Error` in `error.rs`.  `binWrite` may carry a modelled panic
(`WriteFailure.panicked`), which in Rust aborts instead of being
returned. -/
inductive LnkError
  | ioError (msg : String)
  | notAShellLink
  | unexpectedEof (ctx : String)
  | binRead (ctx : String) (e : PErr)
  | binWrite (ctx : String) (e : WriteFailure)
deriving DecidableEq, Repr

/-- `Error::while_parsing`: an I/O end-of-file becomes `UnexpectedEof`
with the component name, anything else a `BinReadError` with the name. -/
def LnkError.whileParsing (ctx : String) : PErr → LnkError
  | .eof => .unexpectedEof ctx
  | e => .binRead ctx e

/-- `Error::while_writing`: a `BinWriteError` with the component name. -/
def LnkError.whileWriting (ctx : String) (e : WriteFailure) : LnkError :=
  .binWrite ctx e

/-! ## The aggregate (`src/lib.rs`) -/

/-- The `ShellLink` aggregate: the header, the three optional structures,
the string data and the resolved encoding. -/
structure ShellLink where
  header : ShellLinkHeader
  linktarget_id_list : Option LinkTargetIdList
  link_info : Option LinkInfo
  string_data : StringData
  extra_data : ExtraData
  encoding : Enc
deriving DecidableEq, Repr

/-- `ShellLink::default`: a blank link with the default header; the stored
encoding is UTF-16LE when the default header carries `IS_UNICODE` and
windows-1252 otherwise. -/
def ShellLink.default : ShellLink :=
  let header := ShellLinkHeader.default
  { header := header
    linktarget_id_list := none
    link_info := none
    string_data := StringData.default
    extra_data := []
    encoding :=
      if header.link_flags.containsF IS_UNICODE then .utf16le else .windows1252 }

/-- `ShellLink::save`: write the header, then the string data with the
header's link flags and the stored encoding — and nothing else; the
target ID list, link info and extra data writes are commented out in the
source.  Write failures are wrapped with the component name. -/
def ShellLink.save (l : ShellLink) : Except LnkError (List Nat) :=
  match l.string_data.write l.header.link_flags l.encoding with
  | .error e => .error (LnkError.whileWriting "StringData" e)
  | .ok stringBytes => .ok (encodeHeader l.header ++ stringBytes)

/-- `ShellLink::open`: parse the header, then — each gated by its header
flag — the target ID list and the link info, then the string data and the
extra data, wrapping each component's failure with its name; the stored
encoding is UTF-16LE when `IS_UNICODE` is set and the caller-supplied
code page otherwise. -/
def ShellLink.openLink (bs : List Nat) (encoding : Enc) : Except LnkError ShellLink :=
  match parseHeader bs with
  | .error e => .error (LnkError.whileParsing "ShellLinkHeader" e)
  | .ok (shell_link_header, r1) =>
    let link_flags := shell_link_header.link_flags
    match
      (if link_flags.containsF HAS_LINK_TARGET_ID_LIST then
        match parseIdList r1 with
        | .error e => .error (LnkError.whileParsing "LinkTargetIdList" e)
        | .ok (idl, r) => .ok (some idl, r)
      else .ok (none, r1) : Except LnkError (Option LinkTargetIdList × List Nat)) with
    | .error e => .error e
    | .ok (linktarget_id_list, r2) =>
      match
        (if link_flags.containsF HAS_LINK_INFO then
          match parseLinkInfo encoding r2 with
          | .error e => .error (LnkError.whileParsing "LinkInfo" e)
          | .ok (info, r) => .ok (some info, r)
        else .ok (none, r2) : Except LnkError (Option LinkInfo × List Nat)) with
      | .error e => .error e
      | .ok (link_info, r3) =>
        match StringData.parse link_flags encoding r3 with
        | .error e => .error (LnkError.whileParsing "StringData" e)
        | .ok (string_data, r4) =>
          match parseExtraData r4 with
          | .error e => .error (LnkError.whileParsing "ExtraData" e)
          | .ok extra_data =>
            .ok { header := shell_link_header
                  linktarget_id_list := linktarget_id_list
                  link_info := link_info
                  string_data := string_data
                  extra_data := extra_data
                  encoding :=
                    if link_flags.containsF IS_UNICODE then .utf16le else encoding }

/-- `ShellLink::link_target`: `ok none` when no Link Info is present;
otherwise the base path — the network share name when the
network-and-suffix flag is set (`expect`ing the sub-block), else the
Unicode local base path `or` the code-page one (`expect`ing one of them) —
joined with the Unicode-preferred common path suffix, inserting one `'\'`
when the suffix is non-empty and the base does not already end with one.
`error` models the Rust panic of `expect`. -/
def ShellLink.link_target (l : ShellLink) : Except String (Option RStr) :=
  match l.link_info with
  | none => .ok none
  | some info =>
    match
      (if info.link_info_flags.common_network_relative_link_and_path_suffix then
        match info.common_network_relative_link with
        | some cnrl => .ok cnrl.name
        | none => .error "missing common network relative link"
      else
        match info.local_base_path_unicode.or info.local_base_path with
        | some p => .ok p
        | none => .error "missing local base path" : Except String RStr) with
    | .error msg => .error msg
    | .ok base_path =>
      let common_path := info.common_path_suffix_unicode.getD info.common_path_suffix
      if common_path.isEmpty then
        .ok (some base_path)
      else if base_path.getLast? = some '\\' then
        .ok (some (base_path ++ common_path))
      else
        .ok (some (base_path ++ ['\\'] ++ common_path))

/-- `ShellLink::set_name`: update `HAS_NAME` to the presence of the value
and store the value, in the same operation. -/
def ShellLink.set_name (l : ShellLink) (name : Option RStr) : ShellLink :=
  { l with
    header := l.header.update_link_flags HAS_NAME name.isSome
    string_data := { l.string_data with name_string := name } }

/-- `ShellLink::set_relative_path`. -/
def ShellLink.set_relative_path (l : ShellLink) (relative_path : Option RStr) : ShellLink :=
  { l with
    header := l.header.update_link_flags HAS_RELATIVE_PATH relative_path.isSome
    string_data := { l.string_data with relative_path := relative_path } }

/-- `ShellLink::set_working_dir`. -/
def ShellLink.set_working_dir (l : ShellLink) (working_dir : Option RStr) : ShellLink :=
  { l with
    header := l.header.update_link_flags HAS_WORKING_DIR working_dir.isSome
    string_data := { l.string_data with working_dir := working_dir } }

/-- `ShellLink::set_arguments`. -/
def ShellLink.set_arguments (l : ShellLink) (arguments : Option RStr) : ShellLink :=
  { l with
    header := l.header.update_link_flags HAS_ARGUMENTS arguments.isSome
    string_data := { l.string_data with command_line_arguments := arguments } }

/-- `ShellLink::set_icon_location`. -/
def ShellLink.set_icon_location (l : ShellLink) (icon_location : Option RStr) : ShellLink :=
  { l with
    header := l.header.update_link_flags HAS_ICON_LOCATION icon_location.isSome
    string_data := { l.string_data with icon_location := icon_location } }

/-! ## Spec-side statement of the derived link target

These definitions follow the spec's words for the *effective link target
path* and exist only to be compared with `ShellLink.link_target` above,
which is translated from the source. -/

/-- Follows the spec's words: prefer the Unicode local base path if
present, else the code-page local base path, or — if the
network-and-suffix flag is set — the CommonNetworkRelativeLink's share
name. -/
def specBasePath (info : LinkInfo) : Option RStr :=
  if info.link_info_flags.common_network_relative_link_and_path_suffix then
    info.common_network_relative_link.map (fun c => c.name)
  else
    info.local_base_path_unicode.or info.local_base_path

/-- Follows the spec's words: the Unicode-preferred common path suffix. -/
def specSuffix (info : LinkInfo) : RStr :=
  info.common_path_suffix_unicode.getD info.common_path_suffix

/-- Follows the spec's words: append the suffix to the base, inserting
exactly one path separator if the suffix is non-empty and the base does
not already end with one. -/
def specJoin (base suffix : RStr) : RStr :=
  if suffix = [] then base
  else if base.getLast? = some '\\' then base ++ suffix
  else base ++ ['\\'] ++ suffix

/-! ## Mutation sequences over the five string setters -/

/-- One call to one of the five string mutators of the aggregate. -/
inductive StrMutation
  | name (v : Option RStr)
  | relPath (v : Option RStr)
  | workDir (v : Option RStr)
  | args (v : Option RStr)
  | icon (v : Option RStr)
deriving DecidableEq, Repr

/-- Apply one mutator call to the aggregate. -/
def applyMutation (l : ShellLink) : StrMutation → ShellLink
  | .name v => l.set_name v
  | .relPath v => l.set_relative_path v
  | .workDir v => l.set_working_dir v
  | .args v => l.set_arguments v
  | .icon v => l.set_icon_location v

/-- The flag/payload pairing invariant for the five string fields: each
field holds data exactly when its header flag is set. -/
def stringConsistent (l : ShellLink) : Prop :=
  l.header.link_flags.hasName = l.string_data.name_string.isSome ∧
  l.header.link_flags.hasRelativePath = l.string_data.relative_path.isSome ∧
  l.header.link_flags.hasWorkingDir = l.string_data.working_dir.isSome ∧
  l.header.link_flags.hasArguments = l.string_data.command_line_arguments.isSome ∧
  l.header.link_flags.hasIconLocation = l.string_data.icon_location.isSome

instance (l : ShellLink) : Decidable (stringConsistent l) := by
  unfold stringConsistent
  infer_instance

/-! ## Concrete sample aggregates -/

/-- A link flag set marking the target ID list, the link info and the
name as present. -/
def fullFlags : LinkFlags := ⟨true, true, true, false, false, false, false, false, 0⟩

/-- A concrete aggregate whose header flags mark the Target ID List, the
Link Info and the name as present, and which holds all that data. -/
def fullLink : ShellLink where
  header := { ShellLinkHeader.default with link_flags := fullFlags }
  linktarget_id_list := some ⟨[[1, 2, 3]]⟩
  link_info := some ⟨⟨false, false⟩, none, some ['C', ':'], none, [], none, none⟩
  string_data := { StringData.default with name_string := some ['x'] }
  extra_data := [⟨2684354561, [7, 7]⟩]
  encoding := .windows1252

/-- `fullLink` with its three optional structures stripped (the presence
flags left untouched). -/
def strippedLink : ShellLink :=
  { fullLink with linktarget_id_list := none, link_info := none, extra_data := [] }

/-- An aggregate holding a target ID list whose presence flag is set. -/
def linkWithIdList : ShellLink :=
  { fullLink with link_info := none, extra_data := [] }

/-- The same aggregate without the target ID list (flag still set). -/
def linkSansIdList : ShellLink :=
  { linkWithIdList with linktarget_id_list := none }

/-- The non-Latin sample string 日本語 of the spec's encoding-fidelity
property. -/
def jpName : RStr := ['日', '本', '語']

/-- Link flags resolving the string fields to Unicode, with the name
present. -/
def unicodeNameFlags : LinkFlags := { LinkFlags.empty with hasName := true, isUnicode := true }

/-- Link flags with only the name marked present (code-page strings). -/
def cpNameFlags : LinkFlags := { LinkFlags.empty with hasName := true }

/-- The flag set of a fresh link after `set_name (some _)`: only
`HAS_NAME`. -/
def nameOnlyFlags : LinkFlags := ⟨false, false, true, false, false, false, false, false, 0⟩

/-- The header of a fresh link after `set_name (some _)`. -/
def minimalHeader : ShellLinkHeader :=
  { ShellLinkHeader.default with link_flags := nameOnlyFlags }

/-- A fresh default link carrying only a name. -/
def minimalLink (name : RStr) : ShellLink where
  header := minimalHeader
  linktarget_id_list := none
  link_info := none
  string_data := ⟨some name, none, none, none, none⟩
  extra_data := []
  encoding := .windows1252

/-! ## Helper lemmas -/

/-- An ASCII character occupies one UTF-8 byte. -/
theorem utf8Size_of_ascii (c : Char) (h : c.toNat < 128) : c.utf8Size = 1 := by
  unfold Char.utf8Size
  have hv : c.val ≤ UInt32.ofNatCore 127 Char.utf8Size.proof_1 := by
    change c.val.toNat ≤ 127
    exact Nat.lt_succ_iff.mp h
  rw [if_pos hv]

/-- A character occupies at least one UTF-8 byte, so the character count
never exceeds the UTF-8 byte length. -/
theorem charCount_le_utf8Len (s : RStr) : charCount s ≤ utf8Len s := by
  induction s with
  | nil => simp [charCount, utf8Len]
  | cons c cs ih =>
    have hc := Char.utf8Size_pos c
    simp only [charCount, utf8Len, List.map_cons, List.sum_cons, List.length_cons] at *
    omega

/-- For an all-ASCII string the UTF-8 byte length is the character count. -/
theorem utf8Len_ascii (s : RStr) (h : ∀ c ∈ s, c.toNat < 128) :
    utf8Len s = s.length := by
  induction s with
  | nil => simp [utf8Len]
  | cons c cs ih =>
    have h1 : c.toNat < 128 := h c (by simp)
    simp only [utf8Len, List.map_cons, List.sum_cons, List.length_cons] at *
    rw [utf8Size_of_ascii c h1, ih fun d hd => h d (by simp [hd])]
    omega

/-- windows-1252 encodes an ASCII character to its own code point. -/
theorem cp1252EncodeChar_ascii (c : Char) (h : c.toNat < 128) :
    cp1252EncodeChar c = [c.toNat] := by
  unfold cp1252EncodeChar
  rw [if_pos h]

/-- windows-1252 encodes an all-ASCII string byte-for-byte. -/
theorem cp1252Encode_ascii (s : RStr) (h : ∀ c ∈ s, c.toNat < 128) :
    cp1252Encode s = s.map Char.toNat := by
  induction s with
  | nil => simp [cp1252Encode]
  | cons c cs ih =>
    simp only [cp1252Encode, List.map_cons, List.flatten_cons] at *
    rw [cp1252EncodeChar_ascii c (h c (by simp)), ih fun d hd => h d (by simp [hd])]
    simp

/-- windows-1252 decodes an ASCII code point back to its character. -/
theorem cp1252DecodeByte_ascii (c : Char) (h : c.toNat < 128) :
    cp1252DecodeByte c.toNat = c := by
  unfold cp1252DecodeByte
  rw [if_pos h, Char.ofNat_toNat]

/-- windows-1252 decoding inverts its encoding on all-ASCII strings. -/
theorem cp1252_decode_encode_ascii (s : RStr) (h : ∀ c ∈ s, c.toNat < 128) :
    (s.map Char.toNat).map cp1252DecodeByte = s := by
  induction s with
  | nil => simp
  | cons c cs ih =>
    simp only [List.map_cons, List.cons.injEq]
    exact ⟨cp1252DecodeByte_ascii c (h c (by simp)), ih fun d hd => h d (by simp [hd])⟩

/-- `readBytes` takes and drops when enough bytes remain and reports an
end of file otherwise. -/
theorem readBytes_split (k : Nat) (l : List Nat) :
    readBytes k l =
      if k ≤ l.length then .ok (l.take k, l.drop k) else .error .eof := by
  induction k generalizing l with
  | zero => simp [readBytes]
  | succ n ih =>
    cases l with
    | nil => simp [readBytes]
    | cons b bs =>
      simp only [readBytes, ih bs, List.length_cons]
      by_cases h : n ≤ bs.length
      · rw [if_pos h, if_pos (by omega)]
        rfl
      · rw [if_neg h, if_neg (by omega)]
        rfl

/-- Reading back exactly the bytes that were put in front of a stream. -/
theorem readBytes_append (l r : List Nat) :
    readBytes l.length (l ++ r) = .ok (l, r) := by
  rw [readBytes_split, if_pos (by simp), List.take_left, List.drop_left]

/-- A `u16` value below `2^16` round-trips through its two bytes. -/
theorem readU16_u16le (n : Nat) (h : n < 65536) (r : List Nat) :
    readU16 (u16le n ++ r) = .ok (n, r) := by
  have h1 : readU16 (u16le n ++ r) = .ok (n % 256 + 256 * (n / 256 % 256 + 256 * 0), r) := rfl
  rw [h1, show n % 256 + 256 * (n / 256 % 256 + 256 * 0) = n from by omega]

/-! ## Claim theorems -/

/-- C1: `save` omits the flagged optional structures.  The sample link's
header flags mark the Target ID List and the Link Info as present and the
aggregate holds them (and an extra-data block), yet `save` produces
exactly the bytes it produces for the same aggregate with all three
structures stripped — so none of them is written, although the save
itself succeeds.  This exhibits the defect: the claim (with the spec)
requires every flagged structure to be written. -/
theorem save_omits_flagged_structures :
    ShellLink.save fullLink = ShellLink.save strippedLink ∧
      (ShellLink.save fullLink).isOk = true := by
  decide

/-- C2: the decode/encode/decode round trip is impossible for aggregates
carrying a target ID list: two aggregates that differ in their (flagged,
held) target ID list have byte-identical `save` output, so no decoder
whatsoever can map the saved bytes back to an aggregate equal to the
original in all observable fields for both of them. -/
theorem save_confuses_distinct_aggregates :
    ShellLink.save linkWithIdList = ShellLink.save linkSansIdList ∧
      linkWithIdList.linktarget_id_list ≠ linkSansIdList.linktarget_id_list := by
  decide

/-- C3: the code-page half of the claim holds for ASCII, but the Unicode
half fails: writing 日本語 under the resolved Unicode encoding emits a
length of 9 (the UTF-8 byte count) and 9 UTF-8 bytes — `encoding_rs`
encodes a UTF-16LE request as UTF-8 — and parsing that back demands
`9 * 2` bytes of UTF-16LE payload and dies with an end-of-file instead of
returning the original text. -/
theorem unicode_sized_string_roundtrip_fails :
    write_sized_string (some jpName) unicodeNameFlags HAS_NAME .windows1252 =
        .ok ([9, 0] ++ utf8Encode jpName) ∧
      parse_sized_string unicodeNameFlags HAS_NAME .windows1252
          ([9, 0] ++ utf8Encode jpName) = .error .eof ∧
      write_sized_string (some ['a', 'b', 'c']) cpNameFlags HAS_NAME .windows1252 =
        .ok [3, 0, 97, 98, 99] ∧
      parse_sized_string cpNameFlags HAS_NAME .windows1252 [3, 0, 97, 98, 99] =
        .ok (some ['a', 'b', 'c'], []) := by
  decide

/-- C7 counterexample: a flag/payload mismatch does not produce a typed
error value: with `HAS_NAME` set and the field `none` (and conversely),
`write_sized_string` hits the source's `assert!`, modelled as
`WriteFailure.panicked` — a Rust panic that aborts, not an error returned
to the caller (`WriteFailure.custom`). -/
theorem flag_payload_mismatch_not_typed_error :
    write_sized_string none cpNameFlags HAS_NAME .windows1252 =
        .error (.panicked "assertion failed: s.is_some()") ∧
      write_sized_string (some ['a']) LinkFlags.empty HAS_NAME .windows1252 =
        .error (.panicked "assertion failed: s.is_none()") := by
  decide

/-- C7 amended: a present/absent mismatch between the flag and the
payload makes `write_sized_string` panic (assertion failure) before any
bytes of the field are emitted; the mismatch is never silently repaired,
but no typed error value is returned either. -/
theorem flag_payload_mismatch_panics (s : Option RStr) (lf ef : LinkFlags) (enc : Enc)
    (h : lf.containsF ef = true ∧ s = none ∨ lf.containsF ef = false ∧ s.isSome = true) :
    ∃ msg, write_sized_string s lf ef enc = .error (.panicked msg) := by
  unfold write_sized_string
  rcases h with ⟨hc, hs⟩ | ⟨hc, hs⟩
  · subst hs
    rw [hc]
    exact ⟨_, rfl⟩
  · cases s with
    | none => simp at hs
    | some v =>
      rw [hc]
      exact ⟨_, rfl⟩

/-- C7 witness: the amended theorem applied at a concrete mismatch. -/
theorem flag_payload_mismatch_panics_witness :
    ∃ msg, write_sized_string none unicodeNameFlags HAS_NAME .windows1252 =
      .error (.panicked msg) :=
  flag_payload_mismatch_panics none unicodeNameFlags HAS_NAME .windows1252
    (Or.inl ⟨by decide, rfl⟩)

/-- C6: a present string field whose character count exceeds `65535`
cannot fit the 16-bit length prefix — its UTF-8 byte length (what the
source converts to `u16`) is at least the character count — so the write
fails with the typed "String is too long to be written" error and emits
nothing, with no truncation and no wrapped length. -/
theorem write_sized_string_errors_on_overlong (s : RStr) (lf ef : LinkFlags) (enc : Enc)
    (hflag : lf.containsF ef = true) (hlen : 65535 < charCount s) :
    write_sized_string (some s) lf ef enc =
      .error (.custom "String is too long to be written") := by
  have h1 : charCount s ≤ utf8Len s := charCount_le_utf8Len s
  unfold write_sized_string
  rw [hflag]
  simp only [if_true]
  rw [if_neg (by omega)]

/-- C6 witness: a 65536-character string is rejected. -/
theorem write_sized_string_errors_on_overlong_witness :
    write_sized_string (some (List.replicate 65536 'a')) cpNameFlags HAS_NAME
        .windows1252 = .error (.custom "String is too long to be written") :=
  write_sized_string_errors_on_overlong (List.replicate 65536 'a') cpNameFlags HAS_NAME
    .windows1252 (by decide)
    (by rw [charCount, List.length_replicate]; omega)

/-- C8 counterexample: at a stored character count of `32768` the claim
says the Unicode branch reads exactly `2 * 32768 = 65536` payload bytes —
on this empty remainder it would have to fail with an end-of-file — but
the source's `u16` product wraps to `0`, so the parse reads no payload at
all and succeeds with an empty string. -/
theorem unicode_count_overflow_reads_zero :
    parse_sized_string unicodeNameFlags HAS_NAME .windows1252 [0, 128] =
      .ok (some [], []) := by
  decide

/-- C8 amended: for a stored count `n` the Unicode branch attempts to
read exactly `n * 2 % 2^16` payload bytes — equal to `2 * n` only for
`n ≤ 32767` — succeeding (or failing on a decode error) when that many
bytes remain and reporting an end-of-file otherwise; under the modelled
wrapping overflow semantics it never panics, returning one of these
results for every input. -/
theorem unicode_branch_reads_wrapped_count (n : Nat) (hn : n < 65536) (rest : List Nat) :
    parse_sized_string unicodeNameFlags HAS_NAME .windows1252 (u16le n ++ rest) =
      if n * 2 % 65536 ≤ rest.length then
        (let r := utf16leDecode (rest.take (n * 2 % 65536))
         if r.2 then .error (.assertFail "unable to decode String to UTF-16LE")
         else .ok (some r.1, rest.drop (n * 2 % 65536)))
      else .error .eof := by
  unfold parse_sized_string
  rw [show unicodeNameFlags.containsF HAS_NAME = true from by decide]
  simp only [if_true, readU16_u16le n hn rest]
  show (do
    let (buffer, r2) ← readBytes (n * 2 % 65536) rest
    let (cow, had_errors) := Enc.utf16le.decode buffer
    if had_errors then .error (.assertFail "unable to decode String to UTF-16LE")
    else .ok (some cow, r2)) = _
  rw [readBytes_split]
  by_cases h : n * 2 % 65536 ≤ rest.length
  · rw [if_pos h, if_pos h]
    rfl
  · rw [if_neg h, if_neg h]
    rfl

/-- C8 witness: the amended theorem applied at count 2 with a 4-byte
payload decodes `"ab"`. -/
theorem unicode_branch_reads_wrapped_count_witness :
    parse_sized_string unicodeNameFlags HAS_NAME .windows1252
        (u16le 2 ++ [97, 0, 98, 0]) = .ok (some ['a', 'b'], []) :=
  (unicode_branch_reads_wrapped_count 2 (by decide) [97, 0, 98, 0]).trans (by decide)

/-- C10: `link_target` answers `none` exactly when the aggregate holds no
Link Info; and on an aggregate whose Link Info is present with the
network-and-suffix flag clear and both local base path variants absent,
it panics (the source's `expect("missing local base path")`, modelled as
the `error` result) instead of returning `none` — the function is not
total over all representable Link Info values. -/
theorem link_target_none_iff_no_info_and_panics :
    (∀ l : ShellLink, l.link_target = .ok none ↔ l.link_info = none) ∧
      ∀ (l : ShellLink) (info : LinkInfo), l.link_info = some info →
        info.link_info_flags.common_network_relative_link_and_path_suffix = false →
        info.local_base_path_unicode = none → info.local_base_path = none →
        l.link_target = .error "missing local base path" := by
  constructor
  · intro l
    constructor
    · intro h
      cases hinfo : l.link_info with
      | none => rfl
      | some info =>
        exfalso
        simp only [ShellLink.link_target, hinfo] at h
        repeat' split at h
        all_goals simp at h
    · intro h
      rw [ShellLink.link_target, h]
  · intro l info h1 h2 h3 h4
    simp only [ShellLink.link_target, h1, h2, h3, h4]
    rfl

/-- C10 witness: the iff at a link without Link Info, and the panic at a
link whose Link Info has no base path. -/
theorem link_target_none_iff_no_info_and_panics_witness :
    ShellLink.default.link_target = .ok none ∧
      ({ ShellLink.default with
          link_info := some ⟨⟨false, false⟩, none, none, none, [], none, none⟩ } :
        ShellLink).link_target = .error "missing local base path" :=
  ⟨(link_target_none_iff_no_info_and_panics.1 ShellLink.default).mpr rfl,
    link_target_none_iff_no_info_and_panics.2 _ _ rfl rfl rfl rfl⟩

/-- C5: whenever Link Info is present and a base path exists — the share
name under the network-and-suffix flag, else a Unicode-preferred local
base path — `link_target` returns exactly the spec's derivation: the base
joined to the Unicode-preferred common path suffix with exactly one `'\'`
inserted when the suffix is non-empty and the base does not already end
with one, and the base unchanged when the suffix is empty. -/
theorem link_target_joins_base_and_suffix (l : ShellLink) (info : LinkInfo)
    (h : l.link_info = some info) (base : RStr)
    (hb : specBasePath info = some base) :
    l.link_target = .ok (some (specJoin base (specSuffix info))) := by
  have hexc :
      (if info.link_info_flags.common_network_relative_link_and_path_suffix then
        match info.common_network_relative_link with
        | some cnrl => .ok cnrl.name
        | none => .error "missing common network relative link"
      else
        match info.local_base_path_unicode.or info.local_base_path with
        | some p => .ok p
        | none => .error "missing local base path" : Except String RStr) = .ok base := by
    unfold specBasePath at hb
    by_cases hf : info.link_info_flags.common_network_relative_link_and_path_suffix = true
    · rw [if_pos hf] at hb ⊢
      cases hcn : info.common_network_relative_link with
      | none => rw [hcn] at hb; simp at hb
      | some c =>
        rw [hcn] at hb
        simp at hb
        show (Except.ok c.name : Except String RStr) = .ok base
        rw [hb]
    · rw [if_neg hf] at hb ⊢
      rw [hb]
  simp only [ShellLink.link_target, h]
  rw [hexc]
  unfold specJoin specSuffix
  by_cases he : info.common_path_suffix_unicode.getD info.common_path_suffix = []
  · simp [he]
  · by_cases hl : base.getLast? = some '\\'
    · simp [he, hl]
    · simp [he, hl]

/-- C5 witness: base `C:\Dir` with suffix `file.exe` yields
`C:\Dir\file.exe`, and with an empty suffix the base unchanged. -/
theorem link_target_joins_base_and_suffix_witness :
    ({ ShellLink.default with
        link_info := some ⟨⟨false, false⟩, none, some "C:\\Dir".toList, none,
          "file.exe".toList, none, none⟩ } : ShellLink).link_target =
        .ok (some "C:\\Dir\\file.exe".toList) ∧
      ({ ShellLink.default with
          link_info := some ⟨⟨false, false⟩, none, some "C:\\Dir".toList, none,
            [], none, none⟩ } : ShellLink).link_target =
        .ok (some "C:\\Dir".toList) :=
  ⟨(link_target_joins_base_and_suffix _ _ rfl "C:\\Dir".toList (by decide)).trans
      (by decide),
    (link_target_joins_base_and_suffix _ _ rfl "C:\\Dir".toList (by decide)).trans
      (by decide)⟩

/-- C4: each of the five string mutators stores the value and updates the
corresponding header flag to the value's presence in the same operation —
`some` sets the flag along with the text, `none` clears both — and
consequently the flag/payload pairing of all five fields is preserved by
every sequence of such mutations from any aggregate satisfying it (in
particular from a fresh default aggregate). -/
theorem setters_pair_flags_and_fields :
    (∀ (l : ShellLink) (v : Option RStr),
      (l.set_name v).string_data.name_string = v ∧
        (l.set_name v).header.link_flags.hasName = v.isSome) ∧
    (∀ (l : ShellLink) (v : Option RStr),
      (l.set_relative_path v).string_data.relative_path = v ∧
        (l.set_relative_path v).header.link_flags.hasRelativePath = v.isSome) ∧
    (∀ (l : ShellLink) (v : Option RStr),
      (l.set_working_dir v).string_data.working_dir = v ∧
        (l.set_working_dir v).header.link_flags.hasWorkingDir = v.isSome) ∧
    (∀ (l : ShellLink) (v : Option RStr),
      (l.set_arguments v).string_data.command_line_arguments = v ∧
        (l.set_arguments v).header.link_flags.hasArguments = v.isSome) ∧
    (∀ (l : ShellLink) (v : Option RStr),
      (l.set_icon_location v).string_data.icon_location = v ∧
        (l.set_icon_location v).header.link_flags.hasIconLocation = v.isSome) ∧
    ∀ l : ShellLink, stringConsistent l →
      ∀ ms : List StrMutation, stringConsistent (ms.foldl applyMutation l) := by
  refine ⟨fun l v => ⟨rfl, rfl⟩, fun l v => ⟨rfl, rfl⟩, fun l v => ⟨rfl, rfl⟩,
    fun l v => ⟨rfl, rfl⟩, fun l v => ⟨rfl, rfl⟩, ?_⟩
  intro l hl ms
  induction ms generalizing l with
  | nil => exact hl
  | cons m rest ih =>
    apply ih
    obtain ⟨h1, h2, h3, h4, h5⟩ := hl
    cases m with
    | name v => exact ⟨rfl, h2, h3, h4, h5⟩
    | relPath v => exact ⟨h1, rfl, h3, h4, h5⟩
    | workDir v => exact ⟨h1, h2, rfl, h4, h5⟩
    | args v => exact ⟨h1, h2, h3, rfl, h5⟩
    | icon v => exact ⟨h1, h2, h3, h4, rfl⟩

/-- C4 witness: the invariant after a concrete mutation sequence from the
default aggregate. -/
theorem setters_pair_flags_and_fields_witness :
    stringConsistent
      ([StrMutation.name (some ['a']), StrMutation.relPath (some ['b']),
        StrMutation.name none].foldl applyMutation ShellLink.default) :=
  setters_pair_flags_and_fields.2.2.2.2.2 ShellLink.default (by decide)
    [StrMutation.name (some ['a']), StrMutation.relPath (some ['b']),
      StrMutation.name none]

/-- C9 counterexample: with the non-code-page name `日` the minimal-link
round trip breaks: the write substitutes the numeric character reference
`&#26085;` (8 bytes) while stamping the length `3` (the UTF-8 byte count),
so re-opening misreads the name and then dies with an end-of-file inside
the extra-data chain instead of yielding the name back. -/
theorem minimal_link_nonascii_roundtrip_fails :
    (ShellLink.default.set_name (some ['日'])).save.bind
        (fun bs => ShellLink.openLink bs .windows1252) =
      .error (.unexpectedEof "ExtraData") := by
  decide

/-- C9 amended: for a name of at most 65535 characters representable
identically in the resolved code page (ASCII under the default
windows-1252), the minimal link round-trips: saving a fresh default
aggregate with only the name set and re-opening the bytes yields exactly
the original aggregate — the name present and equal, the other four
string fields, the target ID list and the link info absent, and the
extra data empty. -/
theorem minimal_link_roundtrip_ascii (name : RStr)
    (ha : ∀ c ∈ name, c.toNat < 128) (hl : name.length ≤ 65535) :
    ∃ bs, (ShellLink.default.set_name (some name)).save = .ok bs ∧
      ShellLink.openLink bs .windows1252 =
        .ok (ShellLink.default.set_name (some name)) ∧
      (ShellLink.default.set_name (some name)).string_data.name_string = some name ∧
      (ShellLink.default.set_name (some name)).string_data.relative_path = none ∧
      (ShellLink.default.set_name (some name)).string_data.working_dir = none ∧
      (ShellLink.default.set_name (some name)).string_data.command_line_arguments
        = none ∧
      (ShellLink.default.set_name (some name)).string_data.icon_location = none ∧
      (ShellLink.default.set_name (some name)).linktarget_id_list = none ∧
      (ShellLink.default.set_name (some name)).link_info = none ∧
      (ShellLink.default.set_name (some name)).extra_data = [] := by
  have hmk : ShellLink.default.set_name (some name) = minimalLink name := rfl
  have hn : utf8Len name = name.length := utf8Len_ascii name ha
  have hn65536 : name.length < 65536 := by omega
  -- the one string field that is written
  have hw1 : write_sized_string (some name) nameOnlyFlags HAS_NAME .windows1252 =
      .ok (u16le name.length ++ name.map Char.toNat) := by
    unfold write_sized_string
    rw [if_pos (show nameOnlyFlags.containsF HAS_NAME = true from rfl)]
    show (if utf8Len name ≤ 65535 then _ else _) = _
    rw [if_pos (by omega), hn]
    show (Except.ok (u16le name.length ++ cp1252Encode name) :
      Except WriteFailure (List Nat)) = _
    rw [cp1252Encode_ascii name ha]
  -- the whole string-data section
  have hw : StringData.write ⟨some name, none, none, none, none⟩ nameOnlyFlags
      .windows1252 = .ok (u16le name.length ++ name.map Char.toNat) := by
    unfold StringData.write
    simp only [hw1]
    show (Except.ok ((((u16le name.length ++ name.map Char.toNat) ++ [] ++ []) ++ []) ++ []) :
      Except WriteFailure (List Nat)) = _
    simp
  -- the save output
  have hsave : (minimalLink name).save =
      .ok (encodeHeader minimalHeader ++ (u16le name.length ++ name.map Char.toNat)) := by
    unfold ShellLink.save
    simp only [show (minimalLink name).string_data =
        (⟨some name, none, none, none, none⟩ : StringData) from rfl,
      show (minimalLink name).header = minimalHeader from rfl,
      show minimalHeader.link_flags = nameOnlyFlags from rfl,
      show (minimalLink name).encoding = Enc.windows1252 from rfl, hw]
  -- re-parsing the header in front of any remainder
  have hph : ∀ rest : List Nat,
      parseHeader (encodeHeader minimalHeader ++ rest) = .ok (minimalHeader, rest) :=
    fun rest => rfl
  -- re-parsing the name field
  have hp1 : parse_sized_string nameOnlyFlags HAS_NAME .windows1252
      (u16le name.length ++ name.map Char.toNat) = .ok (some name, []) := by
    unfold parse_sized_string
    rw [if_pos (show nameOnlyFlags.containsF HAS_NAME = true from rfl)]
    simp only [readU16_u16le name.length hn65536 (name.map Char.toNat)]
    have hrb : readBytes name.length (name.map Char.toNat) =
        .ok (name.map Char.toNat, []) := by
      have h := readBytes_append (name.map Char.toNat) []
      simpa using h
    show ((do
      let (buffer, r2) ← readBytes name.length (name.map Char.toNat)
      let (cow, had_errors) := Enc.windows1252.decode buffer
      if had_errors then .error (.assertFail "unable to decode String to CP1252")
      else .ok (some cow, r2) : Except PErr (Option RStr × List Nat))) =
        .ok (some name, [])
    rw [hrb]
    show (Except.ok (some ((name.map Char.toNat).map cp1252DecodeByte), []) :
      Except PErr (Option RStr × List Nat)) = .ok (some name, [])
    rw [cp1252_decode_encode_ascii name ha]
  -- re-parsing the whole string-data section
  have hsp : StringData.parse nameOnlyFlags .windows1252
      (u16le name.length ++ name.map Char.toNat) =
      .ok (⟨some name, none, none, none, none⟩, []) := by
    unfold StringData.parse
    simp only [hp1]
    rfl
  -- the reopened aggregate
  have hopen : ShellLink.openLink
      (encodeHeader minimalHeader ++ (u16le name.length ++ name.map Char.toNat))
      .windows1252 = .ok (minimalLink name) := by
    unfold ShellLink.openLink
    simp only [hph (u16le name.length ++ name.map Char.toNat),
      show minimalHeader.link_flags = nameOnlyFlags from rfl,
      show nameOnlyFlags.containsF HAS_LINK_TARGET_ID_LIST = false from rfl,
      show nameOnlyFlags.containsF HAS_LINK_INFO = false from rfl,
      show nameOnlyFlags.containsF IS_UNICODE = false from rfl,
      Bool.false_eq_true, if_false, hsp]
    rfl
  refine ⟨encodeHeader minimalHeader ++ (u16le name.length ++ name.map Char.toNat),
    ?_, ?_, rfl, rfl, rfl, rfl, rfl, rfl, rfl, rfl⟩
  · rw [hmk, hsave]
  · rw [hmk, hopen]

/-- C9 witness: the amended round trip at the concrete name `Test`. -/
theorem minimal_link_roundtrip_ascii_witness :
    ∃ bs, (ShellLink.default.set_name (some ['T', 'e', 's', 't'])).save = .ok bs ∧
      ShellLink.openLink bs .windows1252 =
        .ok (ShellLink.default.set_name (some ['T', 'e', 's', 't'])) ∧
      (ShellLink.default.set_name
        (some ['T', 'e', 's', 't'])).string_data.name_string =
          some ['T', 'e', 's', 't'] ∧
      (ShellLink.default.set_name
        (some ['T', 'e', 's', 't'])).string_data.relative_path = none ∧
      (ShellLink.default.set_name
        (some ['T', 'e', 's', 't'])).string_data.working_dir = none ∧
      (ShellLink.default.set_name
        (some ['T', 'e', 's', 't'])).string_data.command_line_arguments = none ∧
      (ShellLink.default.set_name
        (some ['T', 'e', 's', 't'])).string_data.icon_location = none ∧
      (ShellLink.default.set_name
        (some ['T', 'e', 's', 't'])).linktarget_id_list = none ∧
      (ShellLink.default.set_name (some ['T', 'e', 's', 't'])).link_info = none ∧
      (ShellLink.default.set_name (some ['T', 'e', 's', 't'])).extra_data = [] :=
  minimal_link_roundtrip_ascii ['T', 'e', 's', 't'] (by decide) (by decide)

end LnkRs
